import Mathlib

/-!
Verification development for the AgrosProject analysis module
(`function/analysis_class.py`).  The pandas DataFrame holding the
Agriculture Total Factor Productivity (USDA) dataset is embedded as a
list of rows; each analysis method of the `Analysis` class is embedded
as a Lean function from the table (and its arguments) to either an
exception value or a description of the data handed to the plotting
backend.  Numeric columns are modelled as rationals; Python dynamic
arguments are modelled by small inductive types of the possible values.
-/

namespace Agros

/-- Row of the primary table: one record per (entity, year) with the
numeric quantity columns the analysis methods read. -/
structure Row where
  entity : String
  year : Int
  crop_output_quantity : ℚ
  animal_output_quantity : ℚ
  fish_output_quantity : ℚ
  fertilizer_quantity : ℚ
  output_quantity : ℚ
  irrigation_quantity : ℚ
  ag_land_quantity : ℚ
  tfp : ℚ
deriving DecidableEq, Repr

abbrev DataFrame := List Row

/-- The fixed aggregate-label list removed by `download_save_data`
(`entities_to_remove` in the source). -/
def entities_to_remove : List String :=
  ["Asia", "Caribbean", "Central Africa", "Central America", "Central Asia",
   "Central Europe", "French Guiana", "Developed Asia", "Developed countries",
   "East Africa", "Eastern Europe", "Europe", "High income", "Horn of Africa",
   "Latin America and the Caribbean", "Least developed countries", "Low income",
   "Upper-middle income", "Lower-middle income", "North Africa",
   "North Macedonia", "North America", "Northeast Asia", "Northern Europe",
   "Oceania", "West Africa", "West Asia", "Western Europe", "World", "Pacific",
   "Polynesia", "South Asia", "Southeast Asia", "Southern Africa",
   "Southern Europe", "Sub-Saharan Africa"]

/-- The cleaning step of `download_save_data`:
`self.dataframe[~self.dataframe["Entity"].isin(entities_to_remove)]`. -/
def cleanRows (df : DataFrame) : DataFrame :=
  df.filter fun r => decide (r.entity ∉ entities_to_remove)

/-- Pandas `Series.unique()`: the distinct values in first-occurrence
order. -/
def pdUnique {α : Type} [DecidableEq α] : List α → List α
  | [] => []
  | x :: xs => x :: (pdUnique xs).filter fun y => decide (y ≠ x)

/-- The `countries_list` method: `self.dataframe["Entity"].unique().tolist()`. -/
def countries_list (df : DataFrame) : List String :=
  pdUnique (df.map (·.entity))

theorem mem_pdUnique {α : Type} [DecidableEq α] (a : α) :
    ∀ l : List α, a ∈ pdUnique l ↔ a ∈ l := by
  intro l
  induction l with
  | nil => simp [pdUnique]
  | cons x xs ih =>
    by_cases hax : a = x
    · subst hax; simp [pdUnique]
    · simp [pdUnique, List.mem_filter, hax, ih]

theorem mem_countries_list (df : DataFrame) (c : String) :
    c ∈ countries_list df ↔ c ∈ df.map (·.entity) := by
  simp [countries_list, mem_pdUnique]

/-- C6.  Every row surviving the cleaning filter has an entity outside
the fixed aggregate-label list, and applying the cleaning filter to an
already-cleaned table returns it unchanged. -/
theorem clean_no_aggregates_idempotent (df : DataFrame) :
    (∀ r ∈ cleanRows df, r.entity ∉ entities_to_remove) ∧
      cleanRows (cleanRows df) = cleanRows df := by
  constructor
  · intro r hr
    have := List.of_mem_filter hr
    simpa using this
  · simp [cleanRows, List.filter_filter]

/-- Insert into a sorted list of years (helper for the sorted grouping
keys that pandas `groupby` produces). -/
def insertYear (x : Int) : List Int → List Int
  | [] => [x]
  | y :: ys => if x ≤ y then x :: y :: ys else y :: insertYear x ys

/-- Sort a list of years ascending, as pandas `groupby` sorts its keys. -/
def sortYears : List Int → List Int
  | [] => []
  | x :: xs => insertYear x (sortYears xs)

/-- The three columns selected by `plot_output_area`
(`columns_to_plot` in the source), as a projection of a row. -/
def outputTriple (r : Row) : ℚ × ℚ × ℚ :=
  (r.crop_output_quantity, r.animal_output_quantity, r.fish_output_quantity)

/-- The `groupby("Year").sum()[columns_to_plot]` table of the World
branch of `plot_output_area`: one row per distinct year, holding the
three column sums over every row of that year. -/
def worldTable (df : DataFrame) : List (Int × ℚ × ℚ × ℚ) :=
  (sortYears (pdUnique (df.map (·.year)))).map fun y =>
    let rows := df.filter fun r => decide (r.year = y)
    (y, (rows.map (·.crop_output_quantity)).sum,
        (rows.map (·.animal_output_quantity)).sum,
        (rows.map (·.fish_output_quantity)).sum)

/-- The `set_index("Year")[columns_to_plot]` table of the single-entity
branch of `plot_output_area`. -/
def entityTable (df : DataFrame) (e : String) : List (Int × ℚ × ℚ × ℚ) :=
  (df.filter fun r => decide (r.entity = e)).map fun r => (r.year, outputTriple r)

/-- Normalization of one year row:
`df_plot.div(df_plot.sum(axis=1), axis=0) * 100` applied to the row.
Division by a zero row sum yields NaN values in pandas; that outcome is
modelled as `none`. -/
def normalizeRow (c a f : ℚ) : Option (ℚ × ℚ × ℚ) :=
  let s := c + a + f
  if s = 0 then none else some (c / s * 100, a / s * 100, f / s * 100)

/-- Error raised by `plot_output_area`. -/
inductive AreaError where
  | entityNotFound (e : String)
deriving DecidableEq, Repr

/-- The filtering branch of `plot_output_area`: the World/`None`
aggregate table, or the single-entity table with the `ValueError` raised
when the named entity yields no rows. -/
def areaBase (df : DataFrame) (entity : Option String) :
    Except AreaError (List (Int × ℚ × ℚ × ℚ)) :=
  if entity = none ∨ entity = some "World" then .ok (worldTable df)
  else
    match entity with
    | some e =>
      let t := entityTable df e
      if t = [] then .error (.entityNotFound e) else .ok t
    | none => .ok (worldTable df)

/-- The `plot_output_area` method: derives the year-indexed table of the
three output columns for the given entity (or the `None`/"World"
aggregate), raising `ValueError` when a named entity yields no rows, and
normalizing each year row to percentages when `normalize` is `true`.
The value of each derived cell is `none` exactly when pandas would
produce NaN. -/
def plot_output_area (df : DataFrame) (entity : Option String)
    (normalize : Bool) :
    Except AreaError (List (Int × Option (ℚ × ℚ × ℚ))) :=
  match areaBase df entity with
  | .error err => .error err
  | .ok base =>
    if normalize then
      .ok (base.map fun p => (p.1, normalizeRow p.2.1 p.2.2.1 p.2.2.2))
    else
      .ok (base.map fun p => (p.1, some p.2))

theorem normalizeRow_sum_100 {c0 a0 f0 c a f : ℚ}
    (h : normalizeRow c0 a0 f0 = some (c, a, f)) : c + a + f = 100 := by
  by_cases hs : c0 + a0 + f0 = 0
  · simp [normalizeRow, hs] at h
  · simp only [normalizeRow, hs, if_false, Option.some.injEq,
      Prod.mk.injEq] at h
    obtain ⟨hc, ha, hf⟩ := h
    subst hc; subst ha; subst hf
    field_simp
    ring

theorem area_ok_normalized {df : DataFrame} {entity : Option String}
    {rows : List (Int × Option (ℚ × ℚ × ℚ))}
    (h : plot_output_area df entity true = .ok rows) :
    ∃ base : List (Int × ℚ × ℚ × ℚ),
      rows = base.map fun p => (p.1, normalizeRow p.2.1 p.2.2.1 p.2.2.2) := by
  unfold plot_output_area at h
  cases hb : areaBase df entity with
  | error err => rw [hb] at h; exact Except.noConfusion h
  | ok base =>
    rw [hb] at h
    simp only [if_pos] at h
    exact ⟨base, (Except.ok.inj h).symm⟩

/-- C4 (amended).  For every entity (or the None/"World" sentinel)
accepted by `plot_output_area` with `normalize = true`, every year row
of the derived table whose three values are defined (pandas produces NaN
values exactly when the year's raw values sum to zero) has those three
values summing to exactly 100. -/
theorem area_normalized_sum_100 (df : DataFrame) (entity : Option String)
    (rows : List (Int × Option (ℚ × ℚ × ℚ))) (y : Int) (c a f : ℚ)
    (hok : plot_output_area df entity true = .ok rows)
    (hmem : (y, some (c, a, f)) ∈ rows) : c + a + f = 100 := by
  obtain ⟨base, rfl⟩ := area_ok_normalized hok
  obtain ⟨p, _, heq⟩ := List.mem_map.mp hmem
  have hv : normalizeRow p.2.1 p.2.2.1 p.2.2.2 = some (c, a, f) := by
    have := congrArg Prod.snd heq
    simpa using this
  exact normalizeRow_sum_100 hv

/-- Table for the C4 counterexample: one country whose single year row
has all three output quantities equal to zero. -/
def c4Df : DataFrame := [⟨"Testland", 2000, 0, 0, 0, 0, 0, 0, 0, 1⟩]

/-- C4 counterexample.  On `c4Df`, the entity "Testland" is accepted by
`plot_output_area` with `normalize = true`, yet its single year row does
not hold three values summing to 100: the zero row sum makes every value
of the row undefined (NaN in pandas, `none` here). -/
theorem area_normalize_zero_sum_row :
    ¬ (∀ rows, plot_output_area c4Df (some "Testland") true = .ok rows →
        ∀ p ∈ rows, ∃ c a f : ℚ, p.2 = some (c, a, f) ∧ c + a + f = 100) := by
  intro h
  have heval : plot_output_area c4Df (some "Testland") true =
      .ok [((2000 : Int), none)] := by
    have hor : ¬ ((some "Testland" : Option String) = none ∨
        ("Testland" : String) = "World") := by decide
    have hbase : areaBase c4Df (some "Testland") =
        .ok [((2000 : Int), ((0 : ℚ), (0 : ℚ), (0 : ℚ)))] := by
      norm_num [areaBase, c4Df, entityTable, outputTriple, hor]
    simp only [plot_output_area, hbase]
    norm_num [normalizeRow]
  obtain ⟨c, a, f, hv, _⟩ := h [((2000 : Int), none)] heval
    ((2000 : Int), none) (by simp)
  exact Option.noConfusion hv

/-- Table for the C4 witness: a year row with values 10, 30, 60. -/
def w4Df : DataFrame := [⟨"Norway", 2000, 10, 30, 60, 0, 0, 0, 0, 1⟩]

/-- Witness for C4 at a concrete table: row sums 10+30+60 = 100 and the
normalized row keeps the values, which sum to 100. -/
theorem area_normalized_sum_100_witness :
    plot_output_area w4Df (some "Norway") true =
        .ok [((2000 : Int), some ((10 : ℚ), (30 : ℚ), (60 : ℚ)))] ∧
      (10 : ℚ) + 30 + 60 = 100 := by
  have heval : plot_output_area w4Df (some "Norway") true =
      .ok [((2000 : Int), some ((10 : ℚ), (30 : ℚ), (60 : ℚ)))] := by
    have hor : ¬ ((some "Norway" : Option String) = none ∨
        ("Norway" : String) = "World") := by decide
    have hbase : areaBase w4Df (some "Norway") =
        .ok [((2000 : Int), ((10 : ℚ), (30 : ℚ), (60 : ℚ)))] := by
      norm_num [areaBase, w4Df, entityTable, outputTriple, hor]
    simp only [plot_output_area, hbase]
    norm_num [normalizeRow]
  exact ⟨heval,
    area_normalized_sum_100 w4Df (some "Norway")
      [((2000 : Int), some ((10 : ℚ), (30 : ℚ), (60 : ℚ)))] 2000 10 30 60
      heval (by simp)⟩

/-- Element of a Python list argument: a string or some non-string
value (whose identity is irrelevant to the checks). -/
inductive PyV where
  | str (s : String)
  | nonStr
deriving DecidableEq, Repr

/-- The dynamic `countries` argument of `compare_output_for_countries`:
a string, a list, or a value of any other type. -/
inductive CountriesArg where
  | ofStr (s : String)
  | ofList (l : List PyV)
  | otherVal
deriving DecidableEq, Repr

/-- Error raised by `compare_output_for_countries`. -/
inductive CompareError where
  | notStrings
  | notInDataset (invalid : Finset String)
deriving DecidableEq

/-- Total per-row output, the derived "Total Output" column:
sum of the three output categories. -/
def totalOutput (r : Row) : ℚ :=
  r.crop_output_quantity + r.animal_output_quantity + r.fish_output_quantity

/-- The per-country time series built by `compare_output_for_countries`:
filter to the requested entities, sum "Total Output" grouped by
(entity, year), and read off one (year, total) series per requested
country in request order. -/
def compareSeries (df : DataFrame) (countries : List String) :
    List (String × List (Int × ℚ)) :=
  let filtered := df.filter fun r => decide (r.entity ∈ countries)
  countries.map fun c =>
    let rows := filtered.filter fun r => decide (r.entity = c)
    (c, (sortYears (pdUnique (rows.map (·.year)))).map fun y =>
      (y, ((rows.filter fun r => decide (r.year = y)).map totalOutput).sum))

/-- The membership validation and series computation shared by the two
accepted argument shapes of `compare_output_for_countries`:
`set(countries) - set(self.dataframe["Entity"].unique())` must be empty,
otherwise a `ValueError` carrying that set is raised. -/
def compareGo (df : DataFrame) (countries : List String) :
    Except CompareError (List (String × List (Int × ℚ))) :=
  let invalid := countries.toFinset \ (countries_list df).toFinset
  if invalid = ∅ then .ok (compareSeries df countries)
  else .error (.notInDataset invalid)

/-- The `compare_output_for_countries` method: wraps a bare string into
a one-element list, rejects any argument that is neither a string nor a
list of strings with a `TypeError`, validates the names, and produces
the per-country total-output series. -/
def compare_output_for_countries (df : DataFrame) :
    CountriesArg → Except CompareError (List (String × List (Int × ℚ)))
  | .ofStr s => compareGo df [s]
  | .ofList l =>
    if l.all fun v => match v with | .str _ => true | .nonStr => false then
      compareGo df (l.filterMap fun v =>
        match v with | .str s => some s | .nonStr => none)
    else .error .notStrings
  | .otherVal => .error .notStrings

theorem compareGo_strings (df : DataFrame) (l : List String) :
    compare_output_for_countries df (.ofList (l.map PyV.str)) =
      compareGo df l := by
  have hall : (l.map PyV.str).all
      (fun v => match v with | .str _ => true | .nonStr => false) = true := by
    simp [List.all_eq_true]
  simp only [compare_output_for_countries, hall, if_true, if_pos]
  congr 1
  induction l with
  | nil => rfl
  | cons x xs ih => simp [ih]

/-- C5.  A request whose name list contains names absent from the
cleaned entity set is rejected by `compare_output_for_countries` with a
`ValueError` carrying exactly the set of offending names; when every
requested name is present, no such error is raised. -/
theorem compare_invalid_names_exact (df : DataFrame) (l : List String) :
    (l.toFinset \ (countries_list df).toFinset ≠ ∅ →
      compare_output_for_countries df (.ofList (l.map PyV.str)) =
        .error (.notInDataset (l.toFinset \ (countries_list df).toFinset))) ∧
    (l.toFinset \ (countries_list df).toFinset = ∅ →
      ∀ s, compare_output_for_countries df (.ofList (l.map PyV.str)) ≠
        .error (.notInDataset s)) := by
  constructor
  · intro hne
    rw [compareGo_strings]
    simp [compareGo, hne]
  · intro heq s
    rw [compareGo_strings]
    simp [compareGo, heq]

/-- Table for the C5 witness: "Canada" is the only entity. -/
def w5Df : DataFrame := [⟨"Canada", 2000, 1, 1, 1, 1, 1, 1, 1, 1⟩]

/-- Witness for C5: requesting ["Atlantis", "Canada"] on a table whose
only entity is "Canada" raises the domain error naming exactly the
offending singleton set. -/
theorem compare_invalid_names_exact_witness :
    compare_output_for_countries w5Df
        (.ofList (["Atlantis", "Canada"].map PyV.str)) =
      .error (.notInDataset
        (["Atlantis", "Canada"].toFinset \ (countries_list w5Df).toFinset)) :=
  (compare_invalid_names_exact w5Df ["Atlantis", "Canada"]).1 (by decide)

/-- Python value passed for the dynamically typed `year` and
`log_scale` arguments: an integer, a boolean, a string, or a list. -/
inductive PyVal where
  | int (n : Int)
  | bool (b : Bool)
  | str (s : String)
  | list
deriving DecidableEq, Repr

/-- Python exception value: `TypeError` or `ValueError` with message. -/
inductive PyExc where
  | typeError (msg : String)
  | valueError (msg : String)
deriving DecidableEq, Repr

/-- The Python builtin `int()` on the modelled values: integers pass
through, booleans coerce to 0/1, strings parse or raise `ValueError`,
and a list raises `TypeError`. -/
def pyToInt : PyVal → Except PyExc Int
  | .int n => .ok n
  | .bool b => .ok (if b then 1 else 0)
  | .str s =>
    match s.toInt? with
    | some n => .ok n
    | none => .error (.valueError "invalid literal for int() with base 10")
  | .list => .error (.typeError "int() argument must be a string or a number")

/-- Whether `int()` succeeds on the value. -/
def intCoercible (v : PyVal) : Bool :=
  match pyToInt v with
  | .ok _ => true
  | .error _ => false

/-- The shared `try: year = int(year) / except ValueError: raise
TypeError("Year must be an integer")` prologue of `gapminder` and
`choropleth`; a `TypeError` escaping `int()` propagates unchanged. -/
def coerceYear (v : PyVal) : Except PyExc Int :=
  match pyToInt v with
  | .ok n => .ok n
  | .error (.valueError _) => .error (.typeError "Year must be an integer")
  | .error e => .error e

/-- Python `==` comparison of a modelled value against a boolean, as in
`log_scale == True`: `1 == True` and `0 == False` hold, strings and
lists never equal a boolean. -/
def pyEqBool (v : PyVal) (b : Bool) : Bool :=
  match v with
  | .int n => decide (n = if b then 1 else 0)
  | .bool b2 => decide (b2 = b)
  | .str _ => false
  | .list => false

/-- The data handed by `gapminder` to the scatter renderer: the
requested year, the rows of that year, and whether the fertilizer and
output columns were replaced by their logarithms. -/
structure GapOutput where
  year : Int
  rows : DataFrame
  useLog : Bool
deriving DecidableEq, Repr

/-- The `gapminder` method: coerce the year (raising `TypeError` when
`int()` fails), filter to that year, then branch on `log_scale == True`,
`log_scale == False`, or raise `TypeError`. -/
def gapminder (df : DataFrame) (year log_scale : PyVal) :
    Except PyExc GapOutput :=
  match coerceYear year with
  | .error e => .error e
  | .ok y =>
    let filtered := df.filter fun r => decide (r.year = y)
    if pyEqBool log_scale true then .ok ⟨y, filtered, true⟩
    else if pyEqBool log_scale false then .ok ⟨y, filtered, false⟩
    else .error (.typeError "log_scale parameter must be a Boolean")

theorem coerceYear_fail_typeError (v : PyVal) (h : intCoercible v = false) :
    ∃ m, coerceYear v = .error (.typeError m) := by
  unfold intCoercible at h
  unfold coerceYear
  cases hv : pyToInt v with
  | ok n => rw [hv] at h; simp at h
  | error e =>
    cases e with
    | typeError m => exact ⟨m, rfl⟩
    | valueError m => exact ⟨"Year must be an integer", rfl⟩

theorem coerceYear_error_typeError {v : PyVal} {e : PyExc}
    (h : coerceYear v = .error e) : ∃ m, e = .typeError m := by
  unfold coerceYear at h
  cases hv : pyToInt v with
  | ok n => rw [hv] at h; exact Except.noConfusion h
  | error e2 =>
    rw [hv] at h
    cases e2 with
    | typeError m => exact ⟨m, (Except.error.inj h).symm⟩
    | valueError m =>
      exact ⟨"Year must be an integer", (Except.error.inj h).symm⟩

/-- C3 (amended).  `gapminder` raises a `TypeError` whenever `int()`
fails on the year argument, and raises a `TypeError` whenever the
log-scale flag compares (by Python `==`) unequal to both `True` and
`False`; a non-boolean value that compares equal to `True` or `False`
(such as the integer 1) is accepted without error. -/
theorem gapminder_type_error_conditions (df : DataFrame)
    (year log_scale : PyVal) :
    (intCoercible year = false →
      ∃ m, gapminder df year log_scale = .error (.typeError m)) ∧
    (pyEqBool log_scale true = false → pyEqBool log_scale false = false →
      ∃ m, gapminder df year log_scale = .error (.typeError m)) := by
  constructor
  · intro h
    obtain ⟨m, hm⟩ := coerceYear_fail_typeError year h
    exact ⟨m, by simp [gapminder, hm]⟩
  · intro ht hf
    cases hy : coerceYear year with
    | error e =>
      obtain ⟨m, rfl⟩ := coerceYear_error_typeError hy
      exact ⟨m, by simp [gapminder, hy]⟩
    | ok y =>
      refine ⟨"log_scale parameter must be a Boolean", ?_⟩
      simp [gapminder, hy, ht, hf]

/-- C3 counterexample.  The integer 1 is not one of the two boolean
values, yet `gapminder` with `log_scale = 1` succeeds (taking the
logarithmic branch), because `1 == True` holds in Python. -/
theorem gapminder_accepts_int_one_flag :
    (PyVal.int 1 ≠ PyVal.bool true) ∧ (PyVal.int 1 ≠ PyVal.bool false) ∧
      gapminder [] (.int 2000) (.int 1) = .ok ⟨2000, [], true⟩ := by
  refine ⟨by decide, by decide, ?_⟩
  rfl

/-- Witness for C3 at concrete inputs: a list value is not
integer-coercible and the string "x" compares unequal to both booleans,
so the call raises a `TypeError`. -/
theorem gapminder_type_error_conditions_witness :
    intCoercible PyVal.list = false ∧
      ∃ m, gapminder [] .list (.str "x") = .error (.typeError m) :=
  ⟨by decide,
   (gapminder_type_error_conditions [] .list (.str "x")).1 (by decide)⟩

/-- Row of the geographic-boundary table: a country display name (the
geometry plays no role in the embedded logic). -/
structure GeoRow where
  name : String
deriving DecidableEq, Repr

/-- The fixed rename mapping built by `choropleth` (`merge_dict`). -/
def merge_dict : List (String × String) :=
  [("Dem. Rep. Congo", "Democratic Republic of Congo"),
   ("Bosnia and Herz.", "Bosnia and Herzegovina"),
   ("eSwatini", "Eswatini"),
   ("Solomon Is.", "Solomon Islands"),
   ("Central African Rep.", "Central African Republic"),
   ("United States of America", "United States")]

/-- Pandas `Series.replace(merge_dict)` applied to one geographic name. -/
def renameGeo (g : GeoRow) : GeoRow :=
  ⟨(merge_dict.lookup g.name).getD g.name⟩

/-- The left-outer merge `geodata.merge(dataframe, how="left",
left_on="name", right_on="Entity")`: each geographic row pairs with
every productivity row of the same name, or with no row (null quantity
fields) when none matches. -/
def leftJoin (geo : List GeoRow) (df : DataFrame) :
    List (GeoRow × Option Row) :=
  geo.flatMap fun g =>
    match df.filter fun r => decide (r.entity = g.name) with
    | [] => [(g, none)]
    | ms => ms.map fun r => (g, some r)

/-- The data handed by `choropleth` to the map renderer: the merged rows
of the requested year and the color-scale bounds `vmin`/`vmax`. -/
structure ChoroOutput where
  plotted : List (GeoRow × Option Row)
  vmin : Option ℚ
  vmax : Option ℚ
deriving DecidableEq, Repr

/-- The `choropleth` method: coerce the year (raising `TypeError` when
`int()` fails), evaluate the year-membership expression of the source —
a discarded comparison that cannot raise, leaving the `except` branch
that would raise `ValueError("Year is not present in the Dataset")`
dead — then rename, left-join, filter to the year, and compute the
color-scale bounds from the tfp column of the entire table. -/
def choropleth (df : DataFrame) (geo : List GeoRow) (year : PyVal) :
    Except PyExc ChoroOutput :=
  match coerceYear year with
  | .error e => .error e
  | .ok y =>
    let _membershipExpr := df.filter fun r => decide (r.year = y)
    let geo2 := geo.map renameGeo
    let merged := leftJoin geo2 df
    let filtered := merged.filter fun p =>
      match p.2 with
      | some r => decide (r.year = y)
      | none => false
    .ok ⟨filtered, (df.map (·.tfp)).min?, (df.map (·.tfp)).max?⟩

/-- C9.  For every integer year, `choropleth` succeeds and hands the
renderer color-scale bounds equal to the minimum and maximum of the tfp
column over the entire table; in particular two calls with different
years produce identical bounds. -/
theorem choropleth_global_scale (df : DataFrame) (geo : List GeoRow)
    (y y2 : Int) (out out2 : ChoroOutput)
    (h : choropleth df geo (.int y) = .ok out)
    (h2 : choropleth df geo (.int y2) = .ok out2) :
    out.vmin = (df.map (·.tfp)).min? ∧ out.vmax = (df.map (·.tfp)).max? ∧
      out.vmin = out2.vmin ∧ out.vmax = out2.vmax := by
  have e1 := Except.ok.inj h.symm
  have e2 := Except.ok.inj h2.symm
  exact ⟨by rw [e1], by rw [e1], by rw [e1, e2], by rw [e1, e2]⟩

/-- Table for the C1 evaluation: a single "Chile" row for year 2019, so
year 1066 is absent. -/
def c1Df : DataFrame := [⟨"Chile", 2019, 1, 1, 1, 1, 1, 1, 1, 1⟩]

/-- Geographic table for the C1 evaluation. -/
def c1Geo : List GeoRow := [⟨"Chile"⟩]

/-- C1 evaluation at the failing input.  Year 1066 is absent from the
table, yet `choropleth` raises nothing: the source's membership test is
a discarded expression whose evaluation cannot fail, so the call
proceeds to plot a map with no data for that year instead of raising
the intended `ValueError`. -/
theorem choropleth_absent_year_no_error :
    ((c1Df.map (·.year)).contains 1066 = false) ∧
      choropleth c1Df c1Geo (.int 1066) =
        .ok ⟨[], (c1Df.map (·.tfp)).min?, (c1Df.map (·.tfp)).max?⟩ := by
  constructor
  · decide
  · rfl

/-- Witness for C9 at concrete inputs: two different years yield the
same global tfp bounds. -/
theorem choropleth_global_scale_witness :
    (choropleth c1Df c1Geo (.int 2019) =
        .ok ⟨leftJoin (c1Geo.map renameGeo) c1Df,
          (c1Df.map (·.tfp)).min?, (c1Df.map (·.tfp)).max?⟩) ∧
      ((⟨leftJoin (c1Geo.map renameGeo) c1Df, (c1Df.map (·.tfp)).min?,
          (c1Df.map (·.tfp)).max?⟩ : ChoroOutput).vmin =
        (c1Df.map (·.tfp)).min?) := by
  constructor
  · rfl
  · exact (choropleth_global_scale c1Df c1Geo 2019 2019 _ _ rfl rfl).1

/-- The opaque third-party forecaster behind
`ARIMA(...).fit().predict`: given the observed series, the model order
and an index, it returns the forecast value at that index. -/
abbrev ArimaFun := List ℚ → ℕ × ℕ × ℕ → ℕ → ℚ

/-- The statsmodels `predict(start, end)` contract: one forecast value
per index from `start` to `stop` inclusive. -/
def arimaPredict (f : ArimaFun) (series : List ℚ) (order : ℕ × ℕ × ℕ)
    (start stop : ℕ) : List ℚ :=
  (List.range (stop + 1 - start)).map fun k => f series order (start + k)

/-- The Python builtin `range(a, b)` over integers. -/
def pyRange (a b : Int) : List Int :=
  (List.range (b - a).toNat).map fun k => a + (k : Int)

/-- What `predict_tfp` plots for one valid country: the actual series,
the fitted model order, and the predicted series with its x-axis
years. -/
structure CountryPlot where
  country : String
  actualYears : List Int
  actual : List ℚ
  order : ℕ × ℕ × ℕ
  predYears : List Int
  preds : List ℚ
deriving DecidableEq, Repr

/-- The observable outcome of a successful `predict_tfp` call: console
notices for dropped names and one plot per valid country. -/
structure PredictOutput where
  notices : List String
  plots : List CountryPlot
deriving DecidableEq, Repr

/-- Error raised by `predict_tfp`. -/
inductive PredictError where
  | notAList
  | noneAvailable (available : List String)
deriving DecidableEq, Repr

/-- The dynamic `countries` argument of `predict_tfp`: a list of names
or a value of any other type. -/
inductive PredictArg where
  | list (countries : List String)
  | nonList
deriving DecidableEq, Repr

/-- The console notice printed for a name absent from the entity set. -/
def noticeMsg (c : String) : String :=
  c ++ " is not available in the dataset and will be ignored."

/-- The per-country body of the `predict_tfp` loop: filter the table to
the country, plot its (Year, tfp) series, fit order (1, 2, 2), predict
indices `len(data)` through `len(data) + 27`, and plot the predictions
at `range(data["Year"].max() + 1, data["Year"].max() + 29)`. -/
def predictPlot (f : ArimaFun) (df : DataFrame) (c : String) : CountryPlot :=
  let data := df.filter fun r => decide (r.entity = c)
  let series := data.map (·.tfp)
  let m := ((data.map (·.year)).max?).getD 0
  { country := c
    actualYears := data.map (·.year)
    actual := series
    order := (1, 2, 2)
    predYears := pyRange (m + 1) (m + 29)
    preds := arimaPredict f series (1, 2, 2) data.length (data.length + 27) }

/-- The `predict_tfp` method: reject non-list input with a `TypeError`,
print a notice and return on an empty list, keep only the first three
names, drop (with a console notice) names absent from the entity set,
raise `ValueError` when no name survives, and otherwise plot actual and
predicted series for each surviving country. -/
def predict_tfp (f : ArimaFun) (df : DataFrame) :
    PredictArg → Except PredictError PredictOutput
  | .nonList => .error .notAList
  | .list countries =>
    if countries = [] then
      .ok ⟨["Please specify at least one country."], []⟩
    else
      let chosen := countries.take 3
      let available := countries_list df
      let valid := chosen.filter fun c => decide (c ∈ available)
      let notices :=
        (chosen.filter fun c => decide (c ∉ available)).map noticeMsg
      if valid = [] then .error (.noneAvailable available)
      else .ok ⟨notices, valid.map (predictPlot f df)⟩

/-- C7.  Calling `predict_tfp` with an empty list prints the notice and
returns: no error is raised and no model is fitted or plotted. -/
theorem predict_tfp_empty_notice (f : ArimaFun) (df : DataFrame) :
    predict_tfp f df (.list []) =
      .ok ⟨["Please specify at least one country."], []⟩ := rfl

theorem predict_tfp_ok_plots {f : ArimaFun} {df : DataFrame}
    {countries : List String} {out : PredictOutput}
    (hok : predict_tfp f df (.list countries) = .ok out) :
    out.plots = ((countries.take 3).filter fun c =>
      decide (c ∈ countries_list df)).map (predictPlot f df) := by
  unfold predict_tfp at hok
  by_cases hc : countries = []
  · subst hc
    simp only [if_pos rfl] at hok
    rw [← Except.ok.inj hok]
    rfl
  · simp only [hc, if_false, if_neg] at hok
    by_cases hv : (countries.take 3).filter
        (fun c => decide (c ∈ countries_list df)) = []
    · rw [if_pos hv] at hok
      exact Except.noConfusion hok
    · rw [if_neg hv] at hok
      rw [← Except.ok.inj hok]

/-- C8.  Every country plot produced by `predict_tfp` carries the fixed
model order (1, 2, 2) and exactly 28 forecast values, plotted at the 28
consecutive years immediately following the maximum observed year of
that country's series. -/
theorem predict_tfp_arima_order_horizon (f : ArimaFun) (df : DataFrame)
    (arg : PredictArg) (out : PredictOutput) (p : CountryPlot)
    (hok : predict_tfp f df arg = .ok out) (hp : p ∈ out.plots) :
    p.order = (1, 2, 2) ∧ p.preds.length = 28 ∧
      ∃ m, p.actualYears.max? = some m ∧
        p.predYears = (List.range 28).map fun k => m + 1 + (k : Int) := by
  cases arg with
  | nonList => exact Except.noConfusion hok
  | list countries =>
    rw [predict_tfp_ok_plots hok] at hp
    obtain ⟨c, hc, rfl⟩ := List.mem_map.mp hp
    have hcl : c ∈ countries_list df := by
      have := List.of_mem_filter hc
      simpa using this
    have hdata : df.filter (fun r => decide (r.entity = c)) ≠ [] := by
      rw [mem_countries_list] at hcl
      obtain ⟨r, hr, hrc⟩ := List.mem_map.mp hcl
      intro hnil
      have : r ∈ df.filter fun r => decide (r.entity = c) :=
        List.mem_filter.mpr ⟨hr, by simp [hrc]⟩
      rw [hnil] at this
      exact List.not_mem_nil r this
    have hyears : ((df.filter fun r => decide (r.entity = c)).map
        (·.year)) ≠ [] := by
      simpa using hdata
    obtain ⟨m, hm⟩ : ∃ m, ((df.filter fun r => decide (r.entity = c)).map
        (·.year)).max? = some m := by
      cases hmx : ((df.filter fun r => decide (r.entity = c)).map
          (·.year)).max? with
      | none => exact absurd (List.max?_eq_none_iff.mp hmx) hyears
      | some m => exact ⟨m, rfl⟩
    refine ⟨rfl, ?_, m, ?_, ?_⟩
    · simp only [predictPlot, arimaPredict, List.length_map,
        List.length_range]
      omega
    · simpa [predictPlot] using hm
    · simp only [predictPlot, hm, Option.getD_some, pyRange]
      have h28 : ((m + 29 - (m + 1)).toNat) = 28 := by omega
      rw [h28]

/-- C10.  `predict_tfp` only ever looks at the first three list
elements: the whole observable outcome of a call equals that of the
call on the truncated list, and when the first three names are all
invalid the domain error is raised even if a valid name sits further
down the list. -/
theorem predict_tfp_truncates_to_three (f : ArimaFun) (df : DataFrame)
    (countries : List String) :
    (predict_tfp f df (.list countries) =
        predict_tfp f df (.list (countries.take 3))) ∧
      (countries ≠ [] →
        (∀ c ∈ countries.take 3, c ∉ countries_list df) →
        predict_tfp f df (.list countries) =
          .error (.noneAvailable (countries_list df))) := by
  constructor
  · cases countries with
    | nil => rfl
    | cons x xs =>
      simp only [predict_tfp, List.take_take]
      rfl
  · intro hne hall
    have hv : (countries.take 3).filter
        (fun c => decide (c ∈ countries_list df)) = [] := by
      rw [List.filter_eq_nil_iff]
      intro c hcmem
      simpa using hall c hcmem
    simp [predict_tfp, hne, hv]

/-- C2 (amended).  For every non-empty list, validation looks only at
the first three names: the domain error is raised exactly when none of
the first three names is a valid entity name, and otherwise the
operation proceeds using exactly the valid names among the first three,
reporting each invalid one of them via a console notice. -/
theorem predict_tfp_first_three_validation (f : ArimaFun) (df : DataFrame)
    (countries : List String) (hne : countries ≠ []) :
    ((countries.take 3).filter
        (fun c => decide (c ∈ countries_list df)) = [] →
      predict_tfp f df (.list countries) =
        .error (.noneAvailable (countries_list df))) ∧
    ((countries.take 3).filter
        (fun c => decide (c ∈ countries_list df)) ≠ [] →
      predict_tfp f df (.list countries) =
        .ok ⟨((countries.take 3).filter fun c =>
            decide (c ∉ countries_list df)).map noticeMsg,
          ((countries.take 3).filter fun c =>
            decide (c ∈ countries_list df)).map (predictPlot f df)⟩) := by
  constructor
  · intro hv
    simp [predict_tfp, hne, hv]
  · intro hv
    simp [predict_tfp, hne, hv]

/-- A concrete opaque forecaster, used to instantiate `predict_tfp` at
concrete inputs. -/
def arimaZero : ArimaFun := fun _ _ _ => 0

/-- Table whose only entity is "Canada", for the `predict_tfp`
evaluations. -/
def c2Df : DataFrame := [⟨"Canada", 2000, 1, 1, 1, 1, 1, 1, 1, 1⟩]

/-- C2 counterexample.  The supplied list contains the valid name
"Canada", yet `predict_tfp` raises the domain error, because "Canada"
sits in fourth position and only the first three names are ever
validated. -/
theorem predict_tfp_valid_fourth_name_errors :
    ("Canada" ∈ ["AAA", "BBB", "CCC", "Canada"]) ∧
      ("Canada" ∈ countries_list c2Df) ∧
      predict_tfp arimaZero c2Df (.list ["AAA", "BBB", "CCC", "Canada"]) =
        .error (.noneAvailable ["Canada"]) := by
  refine ⟨by decide, by decide, ?_⟩
  rfl

/-- Witness for C2 at concrete inputs: with ["Canada", "Atlantis"] and
only "Canada" valid, the call succeeds, notices "Atlantis", and plots
exactly "Canada". -/
theorem predict_tfp_first_three_validation_witness :
    predict_tfp arimaZero c2Df (.list ["Canada", "Atlantis"]) =
      .ok ⟨((["Canada", "Atlantis"].take 3).filter fun c =>
          decide (c ∉ countries_list c2Df)).map noticeMsg,
        ((["Canada", "Atlantis"].take 3).filter fun c =>
          decide (c ∈ countries_list c2Df)).map
            (predictPlot arimaZero c2Df)⟩ :=
  (predict_tfp_first_three_validation arimaZero c2Df ["Canada", "Atlantis"]
    (by decide)).2 (by decide)

/-- Table for the C8 witness. -/
def w8Df : DataFrame := [⟨"Canada", 2000, 1, 1, 1, 1, 1, 1, 1, 2⟩]

/-- Witness for C8 at concrete inputs. -/
theorem predict_tfp_arima_order_horizon_witness :
    predict_tfp arimaZero w8Df (.list ["Canada"]) =
        .ok ⟨[], [predictPlot arimaZero w8Df "Canada"]⟩ ∧
      ((predictPlot arimaZero w8Df "Canada").order = (1, 2, 2) ∧
        (predictPlot arimaZero w8Df "Canada").preds.length = 28 ∧
        ∃ m, (predictPlot arimaZero w8Df "Canada").actualYears.max? =
            some m ∧
          (predictPlot arimaZero w8Df "Canada").predYears =
            (List.range 28).map fun k => m + 1 + (k : Int)) := by
  have hok : predict_tfp arimaZero w8Df (.list ["Canada"]) =
      .ok ⟨[], [predictPlot arimaZero w8Df "Canada"]⟩ := rfl
  exact ⟨hok, predict_tfp_arima_order_horizon arimaZero w8Df
    (.list ["Canada"]) _ _ hok (by simp)⟩

/-- Witness for C10 at concrete inputs: the four-name list behaves like
its three-name truncation, and errors although "Canada" (valid, fourth)
is supplied. -/
theorem predict_tfp_truncates_to_three_witness :
    (predict_tfp arimaZero c2Df (.list ["AAA", "BBB", "CCC", "Canada"]) =
        predict_tfp arimaZero c2Df
          (.list (["AAA", "BBB", "CCC", "Canada"].take 3))) ∧
      predict_tfp arimaZero c2Df (.list ["AAA", "BBB", "CCC", "Canada"]) =
        .error (.noneAvailable (countries_list c2Df)) :=
  ⟨(predict_tfp_truncates_to_three arimaZero c2Df
      ["AAA", "BBB", "CCC", "Canada"]).1,
   (predict_tfp_truncates_to_three arimaZero c2Df
      ["AAA", "BBB", "CCC", "Canada"]).2 (by decide) (by decide)⟩

/-- Concrete table exercising the cleaning filter: one aggregate row
and one country row. -/
def w6Df : DataFrame :=
  [⟨"Asia", 2000, 1, 1, 1, 1, 1, 1, 1, 1⟩,
   ⟨"Chile", 2000, 1, 1, 1, 1, 1, 1, 1, 1⟩]

/-- Witness for C6 at a concrete table. -/
theorem clean_no_aggregates_idempotent_witness :
    (⟨"Chile", 2000, 1, 1, 1, 1, 1, 1, 1, 1⟩ : Row).entity ∉ entities_to_remove ∧
      cleanRows (cleanRows w6Df) = cleanRows w6Df :=
  ⟨(clean_no_aggregates_idempotent w6Df).1 _ (by decide),
   (clean_no_aggregates_idempotent w6Df).2⟩

end Agros
